import Mathlib

/-!
Shallow embedding of the auto-a11y resolution pipeline.

Source files embedded:
  - src/locator-schema.ts   (LocatorQuerySchema, the zod Query Model)
  - src/prompt.ts           (createLocatorPrompt)
  - src/snapshot-manager.ts (SnapshotManager.readSnapshots / saveSnapshot)
  - src/a11y-ai-locator.ts  (A11yAILocator.locate, locateWithSimplifiedHTML,
                             executeTestingLibraryQuery, executePrompt)
  - src/ai-agent.ts         (AIAgent.execute, executeActionPlan,
                             applyIndexSelector, executeAction)

Modelling conventions:
  - JavaScript strings are Lean String; machine integers do not occur.
  - A raw gateway response string is abstracted by its JSON parse outcome
    (the code only ever feeds the raw text to JSON.parse), as RawResponse.
  - Promise failure / rejection is Except; the timeout race of the primary
    attempt is folded into the gateway outcome (losing the race is a
    GatewayOutcome.failure, like a transport error).
  - The Playwright page is modelled by the query the code builds against it
    (PWLocator) plus an environment function counting live matches.
  - testInstance.step with a non-null test instance runs its callback and
    returns its value; it is modelled as transparent.  The cache-hit branch
    of locate calls this.testInstance.step without a null check, so a null
    test instance there is a runtime fault, modelled as RuntimeError.
-/

set_option linter.unusedVariables false

/-- A JSON value, as produced by JavaScript JSON.parse (object keys unique). -/
inductive Json where
  | null
  | bool (b : Bool)
  | num (n : Int)
  | str (s : String)
  | arr (elems : List Json)
  | obj (fields : List (String × Json))

/-- Property access o.k on a JSON value: some v if o is an object with field
k, none otherwise (JavaScript undefined). -/
def Json.getField : Json → String → Option Json
  | .obj fields, k => lookupField fields k
  | _, _ => none
where lookupField : List (String × Json) → String → Option Json
  | [], _ => none
  | e :: es, k => if e.1 = k then some e.2 else lookupField es k

/-- A raw gateway response string, abstracted by its JSON parse outcome:
malformed carries the raw text (needed for error messages), wellFormed the
parsed value. -/
inductive RawResponse where
  | malformed (text : String)
  | wellFormed (value : Json)

/-- The structured query of src/locator-schema.ts: at runtime the parsed
object has fields query and params.  (The file also carries cache entries,
which the code reads back unvalidated into the same shape.) -/
structure LocatorQuery where
  query : String
  params : List String
deriving DecidableEq

/-- The closed query-kind enumeration of LocatorQuerySchema
(src/locator-schema.ts lines 7-14), in source order. -/
def validQueryKinds : List String :=
  ["getByRole", "getByLabelText", "getByPlaceholderText", "getByAltText",
   "getByText", "getByTestId"]

/-- Interpret a JSON array as an array of strings (zod z.array(z.string())). -/
def Json.asStringArray : Json → Option (List String)
  | .arr elems => collect elems
  | _ => none
where collect : List Json → Option (List String)
  | [] => some []
  | .str s :: rest => (collect rest).map (s :: ·)
  | _ => none

/-- LocatorQuerySchema.parse (src/locator-schema.ts lines 6-16): the object
must have a query field drawn from the six-kind enum and a params field that
is an array of strings of length at least 1.  Nothing else is checked; in
particular the first parameter of a getByRole query is an arbitrary string. -/
def LocatorQuerySchema.parse (j : Json) : Except String LocatorQuery :=
  match j.getField "query", j.getField "params" with
  | some (.str q), some p =>
    if q ∈ validQueryKinds then
      match p.asStringArray with
      | some ps =>
        if 1 ≤ ps.length then Except.ok ⟨q, ps⟩
        else Except.error "params: array must contain at least 1 element"
      | none => Except.error "params: expected an array of strings"
    else Except.error "query: invalid enum value"
  | _, _ => Except.error "invalid response shape"

/-- A Playwright locator, identified by the query call that builds it
(the automation-engine boundary of spec section 6). -/
inductive PWLocator where
  | getByRole (role : String) (name : Option String)
  | getByText (text : String) (exact : Option Bool)
  | getByLabel (text : String)
  | getByPlaceholder (text : String)
  | getByTestId (id : String)
  | getByAltText (text : String)
deriving DecidableEq

/-- JavaScript String.prototype.toLowerCase on the ASCII query names the
code compares: lower-case every character.  (Defined structurally over the
character list so that it evaluates by definitional unfolding; on ASCII it
agrees with the Unicode mapping.) -/
def jsToLower (s : String) : String :=
  ⟨s.data.map Char.toLower⟩

/-- A11yAILocator.executeTestingLibraryQuery (src/a11y-ai-locator.ts lines
516-546): switch on query.query.toLowerCase().  params[0] on an empty params
list is JavaScript undefined; the resulting call is modelled as none (a
runtime fault at the point of use).  The recognized getbytext case passes
an explicit exact false option; the default fallback passes no option. -/
def executeTestingLibraryQuery (q : LocatorQuery) : Option PWLocator :=
  match q.params.head? with
  | none => none
  | some p0 =>
    some (match jsToLower q.query with
      | "getbyrole" =>
        if q.params.length > 1 then PWLocator.getByRole p0 q.params[1]?
        else PWLocator.getByRole p0 none
      | "getbytext" => PWLocator.getByText p0 (some false)
      | "getbylabeltext" => PWLocator.getByLabel p0
      | "getbyplaceholdertext" => PWLocator.getByPlaceholder p0
      | "getbytestid" => PWLocator.getByTestId p0
      | "getbyalttext" => PWLocator.getByAltText p0
      | _ => PWLocator.getByText p0 none)

/-! ## Snapshot cache (src/snapshot-manager.ts)

The backing file is modelled by its parse outcome: missing (fs.existsSync
false), malformed (unreadable or unparseable content, JSON.parse throws and
is caught), or data holding the parsed description-to-query record.  JSON
round-tripping of a well-formed record through JSON.stringify/JSON.parse is
the identity at this level, so saveSnapshot writes the structured record.
Note the runtime value saved by locate is the zod-parsed LocatorQuery
(fields query and params), despite the declared TypeScript field name
queryName; the model follows the runtime shape. -/

/-- The snapshot file state. -/
inductive CacheFile where
  | missing
  | malformed
  | data (entries : List (String × LocatorQuery))
deriving DecidableEq

/-- JavaScript object indexing snapshots[description]; keys produced by
JSON.parse are unique, first match. -/
def lookupEntry : List (String × LocatorQuery) → String → Option LocatorQuery
  | [], _ => none
  | e :: es, k => if e.1 = k then some e.2 else lookupEntry es k

/-- JavaScript object assignment snapshots[description] = queryInfo:
overwrite in place when the key exists, append otherwise. -/
def upsertEntry : List (String × LocatorQuery) → String → LocatorQuery →
    List (String × LocatorQuery)
  | [], k, q => [(k, q)]
  | e :: es, k, q =>
    if e.1 = k then (k, q) :: es else e :: upsertEntry es k q

/-- SnapshotManager.readSnapshots (src/snapshot-manager.ts lines 49-65):
null path or missing file reads as the empty record; a read or parse error
is caught and also degrades to the empty record. -/
def readSnapshots (path : Option String) (f : CacheFile) :
    List (String × LocatorQuery) :=
  match path with
  | none => []
  | some _ =>
    match f with
    | .missing => []
    | .malformed => []
    | .data es => es

/-- SnapshotManager.saveSnapshot (src/snapshot-manager.ts lines 72-98):
no-op on a null path; otherwise read the existing record (with the same
degrade-to-empty behavior), add or update the entry, and write the whole
record back. -/
def saveSnapshot (path : Option String) (f : CacheFile) (d : String)
    (q : LocatorQuery) : CacheFile :=
  match path with
  | none => f
  | some _ => .data (upsertEntry (readSnapshots path f) d q)

/-! ## Resolution engine (src/a11y-ai-locator.ts) -/

/-- One call to A11yAILocator.executePrompt, as seen at the gateway
boundary: the prompt, the system prompt option, and whether the caller
races the request against the hard timeout (options.useTimeout). -/
structure GatewayCall where
  prompt : String
  systemPrompt : Option String
  useTimeout : Bool
deriving DecidableEq

/-- The outcome of a gateway call: failure covers a thrown transport error,
a backend response without text, and a lost timeout race; success carries
the raw response text. -/
inductive GatewayOutcome where
  | failure (message : String)
  | success (response : RawResponse)

/-- The ephemeral per-instance state of A11yAILocator: lastHtml and
cachedBodyContent (the ResolutionContext of the spec). -/
structure LocState where
  lastHtml : Option String
  cachedBodyContent : Option String

/-- The fixed collaborators and configuration of one A11yAILocator
instance.  gateway abstracts the configured provider branch of
executePrompt; count abstracts locator.count() on the live page; html
abstracts page.content().  extractBodyContent (src/sanitize-html.ts) is a
cheerio-backed document transformation and is abstracted as an opaque
environment function of the html and the description.  simplifyHtml and
createSimpleLocatorPrompt are imported by the source but their defining
module is not in the repository snapshot; they are likewise environment
functions (spec section 4.3: aggressive-strength simplifier and the shorter
degrade prompt). -/
structure Env where
  gateway : GatewayCall → GatewayOutcome
  count : PWLocator → Nat
  html : String
  extractBodyContent : String → String → String
  simplifyHtml : String → String
  createSimpleLocatorPrompt : String → String → String
  useSimplifiedHtml : Bool
  testInstance : Bool
  snapshotFilePath : Option String

/-- The system prompt of locate's primary attempt
(src/a11y-ai-locator.ts lines 251-252 and 263-265). -/
def completeTextSystemPrompt : String :=
  "You must always return the COMPLETE text content for getByText queries, never partial matches. For example, if the element contains \x27Yes, you can\x27, you must return the entire text \x27Yes, you can\x27, not just \x27Yes\x27."

/-- The system prompt of the simplified-HTML degrade attempt
(src/a11y-ai-locator.ts line 330). -/
def conciseSystemPrompt : String :=
  "Return only the query name and parameters. Be concise."

/-- createLocatorPrompt (src/prompt.ts lines 7-64): the primary prompt,
embedding the description, the sanitized body content and the fixed
query-type priority rules. -/
def createLocatorPrompt (description : String) (bodyContent : String) : String :=
  "\nYou are an expert in accessibility testing with Testing Library. Given the HTML below and a description of an element,\ndetermine the most appropriate Testing Library query to locate that element.\n\nReturn ONLY a JSON object with the following format:\n\x7b\x22query\x22: \x22queryName\x22, \x22params\x22: [\x22param1\x22, \x22param2\x22]\x7d\n\nFor example:\n\x7b\x22query\x22: \x22getByRole\x22, \x22params\x22: [\x22button\x22, \x22Submit\x22]\x7d\n\x7b\x22query\x22: \x22getByText\x22, \x22params\x22: [\x22Sign up now\x22]\x7d\n\x7b\x22query\x22: \x22getByLabelText\x22, \x22params\x22: [\x22Email address\x22]\x7d\n\x7b\x22query\x22: \x22getByPlaceholderText\x22, \x22params\x22: [\x22Enter your name\x22]\x7d\n\x7b\x22query\x22: \x22getByTestId\x22, \x22params\x22: [\x22login-form\x22]\x7d\n\nIMPORTANT: you must return only the JSON object and nothing else.\n\nSTRICT PRIORITY ORDER - You MUST follow this order when selecting a query type:\n\n1. getByRole - HIGHEST PRIORITY\n   - Use whenever possible if the element has a semantic role and accessible name\n   - Examples: getByRole: button, Submit | getByRole: heading, Welcome | getByRole: checkbox, Accept terms\n   - ONLY use with valid ARIA roles such as: alert, alertdialog, application, article, banner, button, cell, checkbox, columnheader, combobox, complementary, contentinfo, definition, dialog, directory, document, feed, figure, form, grid, gridcell, group, heading, img, link, list, listbox, listitem, log, main, marquee, math, menu, menubar, menuitem, meter, navigation, none, note, option, presentation, progressbar, radio, radiogroup, region, row, rowgroup, rowheader, scrollbar, search, searchbox, separator, slider, spinbutton, status, switch, tab, table, tablist, tabpanel, term, textbox, timer, toolbar, tooltip, tree, treegrid, treeitem\n   - NEVER use with non-ARIA roles like \x22paragraph\x22, \x22span\x22, \x22div\x22, etc.\n\n2. getByLabelText - HIGH PRIORITY\n   - For form elements with associated labels\n   - Example: getByLabelText: Email address\n\n3. getByPlaceholderText\n   - For input elements with placeholder text\n   - Example: getByPlaceholderText: Enter your name\n\n4. getByAltText\n   - For images with alt text\n   - Example: getByAltText: Company logo\n\n5. getByText - LOWER PRIORITY\n   - Only use when options 1-4 are not applicable\n   - CRITICAL INSTRUCTION:\n     - You MUST provide the EXACT and COMPLETE text content of the element\n     - NEVER return partial text\n     - Example: if element is <div>Yes, you can</div>, return \x22getByText: Yes, you can\x22 (NOT just \x22Yes\x22)\n     - Example: if element is <button>Submit form</button>, return \x22getByText: Submit form\x22 (NOT just \x22Submit\x22)\n     - ALWAYS include ALL text within the element\n\n6. getByTestId - LOWEST PRIORITY\n   - Only use as a last resort when no other query would work\n   - Example: getByTestId: login-form\n\nDescription: " ++ description ++ "\n\nHTML:\n" ++ bodyContent ++ "\n\nQuery:\n"

/-- The body content used by the primary attempt (src/a11y-ai-locator.ts
lines 220-230): the cached derivation is reused when the raw html is
unchanged and the cached value is truthy, otherwise extractBodyContent
recomputes it. -/
def bodyContentOf (env : Env) (st : LocState) (description : String) : String :=
  match st.cachedBodyContent with
  | some cached =>
    if st.lastHtml = some env.html ∧ cached ≠ "" then cached
    else env.extractBodyContent env.html description
  | none => env.extractBodyContent env.html description

/-- The instance state after the body-content step of locate. -/
def stAfterBody (env : Env) (st : LocState) (description : String) : LocState :=
  match st.cachedBodyContent with
  | some cached =>
    if st.lastHtml = some env.html ∧ cached ≠ "" then st
    else ⟨some env.html, some (env.extractBodyContent env.html description)⟩
  | none => ⟨some env.html, some (env.extractBodyContent env.html description)⟩

/-- The gateway call of locate's primary attempt (src/a11y-ai-locator.ts
lines 243-268): the full prompt, the COMPLETE-text system prompt, raced
against the hard timeout. -/
def primaryCallOf (env : Env) (st : LocState) (description : String) : GatewayCall :=
  ⟨createLocatorPrompt description (bodyContentOf env st description),
   some completeTextSystemPrompt, true⟩

/-- The result of locate's primary attempt: the gateway response is
JSON-parsed and validated against LocatorQuerySchema; a gateway failure, a
parse error and a schema error are all Except.error (they land in the same
catch block). -/
def primaryAttempt (env : Env) (st : LocState) (description : String) :
    Except String LocatorQuery :=
  match env.gateway (primaryCallOf env st description) with
  | .failure m => .error m
  | .success (.malformed t) => .error ("Unexpected token in JSON: " ++ t)
  | .success (.wellFormed j) => LocatorQuerySchema.parse j

/-- The gateway call of A11yAILocator.locateWithSimplifiedHTML
(src/a11y-ai-locator.ts lines 318-336): the shorter prompt over the
aggressively simplified html, the concise system prompt, and no timeout
race (executePrompt is called without useTimeout). -/
def degradeCallOf (env : Env) (description : String) : GatewayCall :=
  ⟨env.createSimpleLocatorPrompt description (env.simplifyHtml env.html),
   some conciseSystemPrompt, false⟩

/-- The result of the degrade attempt: parse and validate, as in
locateWithSimplifiedHTML. -/
def degradeAttempt (env : Env) (description : String) :
    Except String LocatorQuery :=
  match env.gateway (degradeCallOf env description) with
  | .failure m => .error m
  | .success (.malformed t) => .error ("Unexpected token in JSON: " ++ t)
  | .success (.wellFormed j) => LocatorQuerySchema.parse j

/-- The uncaught runtime faults of locate: the cache-hit branch calls
this.testInstance.step without a null check, and a locator built from an
empty params list is a call with an undefined argument. -/
inductive RuntimeError where
  | nullTestInstanceStep
  | invalidLocatorCall
deriving DecidableEq

/-- What one locate call produced: the returned locator, the gateway calls
made in order, the snapshot file afterwards and the instance state
afterwards. -/
structure LocateOutput where
  locator : PWLocator
  calls : List GatewayCall
  cacheAfter : CacheFile
  state : LocState

/-- The cache-miss part of A11yAILocator.locate (src/a11y-ai-locator.ts
lines 216-309): primary attempt with timeout race; on success persist to
the cache and return the built locator; on any failure the catch block
runs the degrade attempt (the guard this.useSimplifiedHtml || true is the
literal source condition); on success persist and return, on failure fall
back to page.getByText(description, exact false). -/
def locateMiss (env : Env) (cache : CacheFile) (st : LocState)
    (description : String) : Except RuntimeError LocateOutput :=
  let st1 := stAfterBody env st description
  match primaryAttempt env st description with
  | .ok q =>
    match executeTestingLibraryQuery q with
    | some loc =>
      .ok ⟨loc, [primaryCallOf env st description],
           saveSnapshot env.snapshotFilePath cache description q, st1⟩
    | none => .error .invalidLocatorCall
  | .error _ =>
    if env.useSimplifiedHtml || true then
      match degradeAttempt env description with
      | .ok q =>
        match executeTestingLibraryQuery q with
        | some loc =>
          .ok ⟨loc, [primaryCallOf env st description, degradeCallOf env description],
               saveSnapshot env.snapshotFilePath cache description q, st1⟩
        | none => .error .invalidLocatorCall
      | .error _ =>
        .ok ⟨PWLocator.getByText description (some false),
             [primaryCallOf env st description, degradeCallOf env description],
             cache, st1⟩
    else
      .ok ⟨PWLocator.getByText description (some false),
           [primaryCallOf env st description], cache, st1⟩

/-- A11yAILocator.locate (src/a11y-ai-locator.ts lines 190-310).  The
cache-hit branch builds the locator from the saved entry, runs it through
this.testInstance.step (a fault when the test instance is null), accepts it
when it matches at least one live element, and otherwise falls through to
the cache-miss path. -/
def locate (env : Env) (cache : CacheFile) (st : LocState)
    (description : String) : Except RuntimeError LocateOutput :=
  match lookupEntry (readSnapshots env.snapshotFilePath cache) description with
  | some locatorQuery =>
    match executeTestingLibraryQuery locatorQuery with
    | none => .error .invalidLocatorCall
    | some loc =>
      if env.testInstance then
        if env.count loc > 0 then .ok ⟨loc, [], cache, st⟩
        else locateMiss env cache st description
      else .error .nullTestInstanceStep
  | none => locateMiss env cache st description

/-- The cache states from which locate reaches the gateway: no entry for
the description, or (with a non-null test instance) a well-formed entry
whose query matches zero live elements. -/
def fallsThroughCache (env : Env) (cache : CacheFile) (description : String) : Prop :=
  lookupEntry (readSnapshots env.snapshotFilePath cache) description = none ∨
  (env.testInstance = true ∧
    ∃ q loc, lookupEntry (readSnapshots env.snapshotFilePath cache) description = some q ∧
      executeTestingLibraryQuery q = some loc ∧ env.count loc = 0)

/-! ## Action planner / execution loop (src/ai-agent.ts) -/

/-- A locator after AIAgent.applyIndexSelector: the base locator, its nth
match, or its last match. -/
inductive IndexedLocator where
  | base (l : PWLocator)
  | nth (l : PWLocator) (i : Nat)
  | last (l : PWLocator)
deriving DecidableEq

/-- A Playwright action dispatched by AIAgent.executeAction; the verbs that
take a value carry the value field of the plan (none is JavaScript
undefined). -/
inductive PWAction where
  | click
  | fill (value : Option Json)
  | check
  | uncheck
  | selectOption (value : Option Json)
  | press (value : Option Json)
  | hover
  | dblclick
  | focus
  | tap

/-- The collaborators of one AIAgent instance.  gateway is the stubbed
language-model backend, indexed by the call number (the code reaches it
through aiLocator.executePrompt); locate abstracts the locator tool
(A11yAILocator.locate on the targetDescription field of the plan, which can
be any JSON value or absent); dispatch abstracts the Playwright action call,
which can reject (element not found, not actionable, undefined argument).
bodyContent abstracts extractBodyContent(html) — called with the
description argument missing, so the cheerio pass throws on
description.toLowerCase() and the catch branch returns the truncated raw
html. -/
structure AgentEnv where
  gateway : Nat → GatewayOutcome
  locate : Option Json → Except String PWLocator
  dispatch : IndexedLocator → PWAction → Except String Unit
  bodyContent : String

/-- AIAgent.applyIndexSelector (src/ai-agent.ts lines 182-192), on the
index field of the parsed plan: strict-equality null returns the locator
unchanged; -1 takes the last match; a non-negative number the nth; an
absent or non-numeric index falls through both comparisons and returns the
locator unchanged.  (JavaScript coercing comparisons on non-numeric,
non-null index values are not modelled beyond that fall-through.) -/
def applyIndexSelector (locator : PWLocator) (index : Option Json) : IndexedLocator :=
  match index with
  | some (.num n) =>
    if n = -1 then .last locator
    else if 0 ≤ n then .nth locator n.toNat
    else .base locator
  | _ => .base locator

/-- AIAgent.executeAction (src/ai-agent.ts lines 200-248): switch on the
action field.  The value-requiring verbs throw only when value is
strict-equality null; an absent value (undefined) is passed on to the
Playwright call.  Unknown or non-string actions hit the default branch and
throw. -/
def executeAction (env : AgentEnv) (locator : IndexedLocator)
    (action : Option Json) (value : Option Json) : Except String Unit :=
  match action with
  | some (.str s) =>
    match s with
    | "click" => env.dispatch locator .click
    | "fill" =>
      match value with
      | some .null => .error "Value is required for fill action"
      | _ => env.dispatch locator (.fill value)
    | "check" => env.dispatch locator .check
    | "uncheck" => env.dispatch locator .uncheck
    | "select" =>
      match value with
      | some .null => .error "Value is required for select action"
      | _ => env.dispatch locator (.selectOption value)
    | "press" =>
      match value with
      | some .null => .error "Key is required for press action"
      | _ => env.dispatch locator (.press value)
    | "hover" => env.dispatch locator .hover
    | "dblclick" => env.dispatch locator .dblclick
    | "focus" => env.dispatch locator .focus
    | "tap" => env.dispatch locator .tap
    | _ => .error ("Unsupported action: " ++ s)
  | _ => .error "Unsupported action: undefined"

/-- AIAgent.executeActionPlan (src/ai-agent.ts lines 155-174): the locator
tool registered by the constructor resolves the targetDescription field,
the index selector is applied, and the action is dispatched. -/
def executeActionPlan (env : AgentEnv) (plan : Json) : Except String Unit :=
  match env.locate (plan.getField "targetDescription") with
  | .error m => .error m
  | .ok target =>
    executeAction env (applyIndexSelector target (plan.getField "index"))
      (plan.getField "action") (plan.getField "value")

/-- The single tool description line of the agent (src/tools/locator-tool.ts
lines 6-7, joined at src/ai-agent.ts lines 56-58). -/
def toolDescriptionsText : String :=
  "locateElement: Locates an element on the page using a natural language description"

/-- The base prompt of AIAgent.execute (src/ai-agent.ts lines 61-94). -/
def agentBasePrompt (toolDescriptions : String) (bodyContent : String)
    (instruction : String) : String :=
  "\nYou are an expert in web automation with Playwright. Given the HTML below and an instruction,\ndetermine the action to perform and which elements to target.\n\nYou have access to the following tools:\n" ++ toolDescriptions ++ "\n\nFirst, analyze the instruction to determine:\n1. What action to perform (click, fill, check, etc.)\n2. Which element to target\n3. Any additional values needed (text to type, etc.)\n4. If multiple elements might match, specify which one using a zero-based index (0 for first, 1 for second, etc.)\n\nThen, create a plan that uses the available tools to execute the instruction.\n\nReturn ONLY a JSON object with the following format:\n\x7b\n  \x22action\x22: \x22click\x22 | \x22fill\x22 | \x22check\x22 | \x22uncheck\x22 | \x22select\x22 | \x22press\x22 | \x22hover\x22 | \x22dblclick\x22 | \x22focus\x22 | \x22tap\x22,\n  \x22targetDescription\x22: \x22description of the element to locate\x22,\n  \x22value\x22: \x22optional value for fill/select/press actions\x22,\n  \x22index\x22: 0 | 1 | 2 | -1 | null\n\x7d\n\nFor example:\n\x7b\x22action\x22: \x22click\x22, \x22targetDescription\x22: \x22the submit button\x22, \x22value\x22: null, \x22index\x22: null\x7d\n\x7b\x22action\x22: \x22fill\x22, \x22targetDescription\x22: \x22the email field\x22, \x22value\x22: \x22user@example.com\x22, \x22index\x22: null\x7d\n\x7b\x22action\x22: \x22click\x22, \x22targetDescription\x22: \x22services link\x22, \x22value\x22: null, \x22index\x22: 0\x7d\n\x7b\x22action\x22: \x22click\x22, \x22targetDescription\x22: \x22services link\x22, \x22value\x22: null, \x22index\x22: -1\x7d // last element\n\nHTML:\n" ++ bodyContent ++ "\n\nInstruction: " ++ instruction ++ "\n"

/-- The base prompt AIAgent.execute builds for an environment and an
instruction. -/
def basePromptOf (env : AgentEnv) (instruction : String) : String :=
  agentBasePrompt toolDescriptionsText env.bodyContent instruction

/-- The retry prompt of AIAgent.execute (src/ai-agent.ts lines 130-136):
the base prompt with the corrective note and the previous error message
appended. -/
def retryPrompt (basePrompt : String) (errMsg : String) : String :=
  "\n" ++ basePrompt ++ "\n\nYour previous response could not be parsed as valid JSON. Please try again and ensure you return ONLY a valid JSON object with no additional text, comments, or formatting.\n\nError: " ++ errMsg ++ "\n"

/-- JavaScript string interpolation of a thrown Error value. -/
def renderError (m : String) : String := "Error: " ++ m

/-- The terminal error of AIAgent.execute (src/ai-agent.ts line 142). -/
def terminalMsg (instruction : String) (maxRetries : Nat) (lastErr : String) : String :=
  "Failed to execute instruction \x22" ++ instruction ++ "\x22 after " ++
    toString maxRetries ++ " retries: " ++ renderError lastErr

/-- One iteration of the try block of AIAgent.execute (src/ai-agent.ts
lines 101-124): call the gateway, parse the response as JSON (a parse
failure is rethrown as Invalid JSON response with the raw text), and run
the action plan.  Any error is the caught error of that iteration. -/
def attemptOutcome (env : AgentEnv) (attempt : Nat) : Except String Unit :=
  match env.gateway attempt with
  | .failure m => .error m
  | .success (.malformed t) => .error ("Invalid JSON response: " ++ t)
  | .success (.wellFormed plan) => executeActionPlan env plan

/-- The while loop of AIAgent.execute (src/ai-agent.ts lines 96-149),
with retries as the attempt counter and remaining = maxRetries - retries;
the loop runs while retries is at most maxRetries, and the catch block
retries with the augmented prompt while retries is below maxRetries and
otherwise throws the terminal error.  Returns the prompts of the gateway
calls made, in order, and the overall outcome. -/
def executeFrom (env : AgentEnv) (instruction : String) (basePrompt : String)
    (maxRetries : Nat) (attempt : Nat) (prompt : String) :
    Nat → List String × Except String Unit
  | 0 =>
    match attemptOutcome env attempt with
    | .ok _ => ([prompt], .ok ())
    | .error msg => ([prompt], .error (terminalMsg instruction maxRetries msg))
  | remaining + 1 =>
    match attemptOutcome env attempt with
    | .ok _ => ([prompt], .ok ())
    | .error msg =>
      let next := executeFrom env instruction basePrompt maxRetries
        (attempt + 1) (retryPrompt basePrompt msg) remaining
      (prompt :: next.1, next.2)

/-- AIAgent.execute (src/ai-agent.ts lines 50-149): build the base prompt
once from the page content, then run the retry loop with the default
retry budget semantics. -/
def AIAgent.execute (env : AgentEnv) (instruction : String)
    (maxRetries : Nat := 2) : List String × Except String Unit :=
  executeFrom env instruction (basePromptOf env instruction) maxRetries 0
    (basePromptOf env instruction) maxRetries

/-! ## Concrete environments used by witnesses and counterexamples -/

/-- A gateway response that is valid JSON, passes the schema, and carries a
non-ARIA first parameter for a getByRole query. -/
def roleParagraphJson : Json :=
  Json.obj [("query", Json.str "getByRole"), ("params", Json.arr [Json.str "paragraph"])]

/-- A schema-valid heading response. -/
def headingJson : Json :=
  Json.obj [("query", Json.str "getByRole"),
            ("params", Json.arr [Json.str "heading", Json.str "Example Domain"])]

/-- Environment whose gateway answers the primary (timeout-raced) call with
the paragraph-role response; fields in declaration order: gateway, count,
html, extractBodyContent, simplifyHtml, createSimpleLocatorPrompt,
useSimplifiedHtml, testInstance, snapshotFilePath. -/
def envC1 : Env :=
  ⟨fun c => if c.useTimeout then GatewayOutcome.success (RawResponse.wellFormed roleParagraphJson)
            else GatewayOutcome.failure "unused",
   fun _ => 1,
   "<html><body><p>Intro</p></body></html>",
   fun h _ => h, fun h => h, fun d s => d ++ s,
   false, true, some "snapshots.json"⟩

/-- Environment whose gateway always fails (an always-throwing or
always-timing-out stub). -/
def envFail : Env :=
  ⟨fun _ => GatewayOutcome.failure "AI request timed out",
   fun _ => 0,
   "<html><body><button>Submit</button></body></html>",
   fun h _ => h, fun h => h, fun d s => d ++ s,
   false, true, some "snapshots.json"⟩

/-- Environment whose gateway fails the timeout-raced primary call and
answers the degrade call with a schema-valid heading response. -/
def envDeg : Env :=
  ⟨fun c => if c.useTimeout then GatewayOutcome.failure "AI request timed out"
            else GatewayOutcome.success (RawResponse.wellFormed headingJson),
   fun _ => 1,
   "<html><body><h1>Example Domain</h1></body></html>",
   fun h _ => h, fun h => h, fun d s => d ++ s,
   false, true, some "snapshots.json"⟩

/-- Environment with a live cached entry: count is 1 for the cached heading
locator; the gateway is never supposed to be reached on the hit path. -/
def envHit : Env :=
  ⟨fun _ => GatewayOutcome.failure "gateway must not be called",
   fun l => if l = PWLocator.getByRole "heading" (some "Example Domain") then 1 else 0,
   "<html><body><h1>Example Domain</h1></body></html>",
   fun h _ => h, fun h => h, fun d s => d ++ s,
   false, true, some "snapshots.json"⟩

/-- A cache file holding one entry for the description used by the
cache-hit witness. -/
def cacheHitFile : CacheFile :=
  CacheFile.data [("the main heading", ⟨"getByRole", ["heading", "Example Domain"]⟩)]

/-- A well-formed click plan, as in the spec scenario. -/
def clickPlan : Json :=
  Json.obj [("action", Json.str "click"),
            ("targetDescription", Json.str "the submit button"),
            ("value", Json.null), ("index", Json.null)]

/-- A syntactically valid plan whose verb is not in the fixed verb set. -/
def frobPlan : Json :=
  Json.obj [("action", Json.str "frobnicate"),
            ("targetDescription", Json.str "the widget"),
            ("value", Json.null), ("index", Json.null)]

/-- Agent environment: unparseable text on the first two calls, then the
valid click plan; resolution and dispatch succeed.  Fields in order:
gateway, locate, dispatch, bodyContent. -/
def envRetry : AgentEnv :=
  ⟨fun i => if i < 2 then GatewayOutcome.success (RawResponse.malformed "oops")
            else GatewayOutcome.success (RawResponse.wellFormed clickPlan),
   fun _ => Except.ok (PWLocator.getByRole "button" (some "Submit")),
   fun _ _ => Except.ok (),
   "<button>Submit</button>"⟩

/-- Agent environment: every call yields the same valid JSON whose verb is
unsupported; resolution and dispatch succeed. -/
def envC2 : AgentEnv :=
  ⟨fun _ => GatewayOutcome.success (RawResponse.wellFormed frobPlan),
   fun _ => Except.ok (PWLocator.getByText "the widget" (some false)),
   fun _ _ => Except.ok (),
   "<div>the widget</div>"⟩

/-- Agent environment whose gateway always answers with unparseable text. -/
def envNoise : AgentEnv :=
  ⟨fun _ => GatewayOutcome.success (RawResponse.malformed "I think you should click the button"),
   fun _ => Except.ok (PWLocator.getByText "x" none),
   fun _ _ => Except.ok (),
   "<div>x</div>"⟩

/-- The output of locate in envFail for the description x: both attempts
fail and the literal fallback is returned with the cache untouched. -/
def outFailX : LocateOutput :=
  ⟨PWLocator.getByText "x" (some false),
   [primaryCallOf envFail ⟨none, none⟩ "x", degradeCallOf envFail "x"],
   CacheFile.missing, stAfterBody envFail ⟨none, none⟩ "x"⟩

/-! ## Helper lemmas -/

theorem lookupEntry_upsertEntry_self (es : List (String × LocatorQuery))
    (d : String) (q : LocatorQuery) :
    lookupEntry (upsertEntry es d q) d = some q := by
  induction es with
  | nil => simp [upsertEntry, lookupEntry]
  | cons e es ih =>
    by_cases h : e.1 = d
    · simp [upsertEntry, h, lookupEntry]
    · simp [upsertEntry, h, lookupEntry, ih]

theorem lookupEntry_upsertEntry_ne (es : List (String × LocatorQuery))
    (d k : String) (q : LocatorQuery) (hk : k ≠ d) :
    lookupEntry (upsertEntry es d q) k = lookupEntry es k := by
  induction es with
  | nil => simp [upsertEntry, lookupEntry, Ne.symm hk]
  | cons e es ih =>
    by_cases h : e.1 = d
    · simp [upsertEntry, h, lookupEntry, Ne.symm hk]
    · simp [upsertEntry, h, lookupEntry, ih]

theorem lookupEntry_saveSnapshot_ne (p : Option String) (f : CacheFile)
    (d k : String) (q : LocatorQuery) (hk : k ≠ d) :
    lookupEntry (readSnapshots p (saveSnapshot p f d q)) k =
      lookupEntry (readSnapshots p f) k := by
  cases p with
  | none => rfl
  | some s => simp [saveSnapshot, readSnapshots, lookupEntry_upsertEntry_ne _ _ _ _ hk]

theorem lookupEntry_saveSnapshot_self (p : String) (f : CacheFile)
    (d : String) (q : LocatorQuery) :
    lookupEntry (readSnapshots (some p) (saveSnapshot (some p) f d q)) d = some q := by
  simp [saveSnapshot, readSnapshots, lookupEntry_upsertEntry_self]

/-- What LocatorQuerySchema.parse guarantees about its output. -/
theorem schemaParse_ok_shape (j : Json) (q : LocatorQuery)
    (h : LocatorQuerySchema.parse j = Except.ok q) :
    q.query ∈ validQueryKinds ∧ q.params ≠ [] := by
  unfold LocatorQuerySchema.parse at h
  split at h
  · split at h
    · rename_i hmem
      split at h
      · split at h
        · rename_i hlen
          injection h with h2
          subst h2
          refine ⟨hmem, ?_⟩
          intro hnil
          dsimp only at hnil
          rw [hnil] at hlen
          simp at hlen
        · exact absurd h (by simp)
      · exact absurd h (by simp)
    · exact absurd h (by simp)
  · exact absurd h (by simp)

/-- A schema-validated query always builds a locator (params is non-empty,
so params[0] is defined). -/
theorem executeTLQ_of_schema (j : Json) (q : LocatorQuery)
    (h : LocatorQuerySchema.parse j = Except.ok q) :
    ∃ loc, executeTestingLibraryQuery q = some loc := by
  obtain ⟨-, hne⟩ := schemaParse_ok_shape j q h
  unfold executeTestingLibraryQuery
  cases hp : q.params.head? with
  | none => exact absurd (List.head?_eq_none_iff.mp hp) hne
  | some p0 => exact ⟨_, rfl⟩

/-- An OK primary attempt came through the schema. -/
theorem primaryAttempt_ok_schema (env : Env) (st : LocState) (d : String)
    (q : LocatorQuery) (h : primaryAttempt env st d = Except.ok q) :
    ∃ j, LocatorQuerySchema.parse j = Except.ok q := by
  unfold primaryAttempt at h
  split at h
  · exact absurd h (by simp)
  · exact absurd h (by simp)
  · exact ⟨_, h⟩

/-- An OK degrade attempt came through the schema. -/
theorem degradeAttempt_ok_schema (env : Env) (d : String)
    (q : LocatorQuery) (h : degradeAttempt env d = Except.ok q) :
    ∃ j, LocatorQuerySchema.parse j = Except.ok q := by
  unfold degradeAttempt at h
  split at h
  · exact absurd h (by simp)
  · exact absurd h (by simp)
  · exact ⟨_, h⟩

/-- On a successful primary attempt locate persists and returns the built
locator, making exactly one gateway call. -/
theorem locateMiss_primary_ok (env : Env) (cache : CacheFile) (st : LocState)
    (d : String) (q : LocatorQuery) (loc : PWLocator)
    (h : primaryAttempt env st d = Except.ok q)
    (hloc : executeTestingLibraryQuery q = some loc) :
    locateMiss env cache st d =
      Except.ok ⟨loc, [primaryCallOf env st d],
        saveSnapshot env.snapshotFilePath cache d q, stAfterBody env st d⟩ := by
  simp [locateMiss, h, hloc]

/-- On a failed primary and successful degrade attempt locate persists the
degrade result and returns its locator, making exactly two gateway calls. -/
theorem locateMiss_degrade_ok (env : Env) (cache : CacheFile) (st : LocState)
    (d e : String) (q : LocatorQuery) (loc : PWLocator)
    (h1 : primaryAttempt env st d = Except.error e)
    (h2 : degradeAttempt env d = Except.ok q)
    (hloc : executeTestingLibraryQuery q = some loc) :
    locateMiss env cache st d =
      Except.ok ⟨loc, [primaryCallOf env st d, degradeCallOf env d],
        saveSnapshot env.snapshotFilePath cache d q, stAfterBody env st d⟩ := by
  simp [locateMiss, h1, h2, hloc]

/-- When both attempts fail locate falls back to the literal text query and
leaves the cache untouched. -/
theorem locateMiss_both_fail (env : Env) (cache : CacheFile) (st : LocState)
    (d e1 e2 : String)
    (h1 : primaryAttempt env st d = Except.error e1)
    (h2 : degradeAttempt env d = Except.error e2) :
    locateMiss env cache st d =
      Except.ok ⟨PWLocator.getByText d (some false),
        [primaryCallOf env st d, degradeCallOf env d], cache, stAfterBody env st d⟩ := by
  simp [locateMiss, h1, h2]

/-- From any cache state that falls through, locate runs the cache-miss
path. -/
theorem locate_fallsThrough (env : Env) (cache : CacheFile) (st : LocState)
    (d : String) (h : fallsThroughCache env cache d) :
    locate env cache st d = locateMiss env cache st d := by
  rcases h with h | ⟨ht, q, loc, hq, hloc, hcnt⟩
  · simp [locate, h]
  · simp [locate, hq, hloc, ht, hcnt]

/-- Which cache states locateMiss can leave behind. -/
theorem locateMiss_cacheAfter_cases (env : Env) (cache : CacheFile)
    (st : LocState) (d : String) (out : LocateOutput)
    (h : locateMiss env cache st d = Except.ok out) :
    (∃ q, primaryAttempt env st d = Except.ok q ∧
       out.cacheAfter = saveSnapshot env.snapshotFilePath cache d q) ∨
    (∃ e q, primaryAttempt env st d = Except.error e ∧
       degradeAttempt env d = Except.ok q ∧
       out.cacheAfter = saveSnapshot env.snapshotFilePath cache d q) ∨
    (∃ e1 e2, primaryAttempt env st d = Except.error e1 ∧
       degradeAttempt env d = Except.error e2 ∧ out.cacheAfter = cache) := by
  cases hp : primaryAttempt env st d with
  | ok q =>
    cases hloc : executeTestingLibraryQuery q with
    | none => simp [locateMiss, hp, hloc] at h
    | some loc =>
      rw [locateMiss_primary_ok env cache st d q loc hp hloc] at h
      injection h with h2
      exact Or.inl ⟨q, rfl, by rw [← h2]⟩
  | error e =>
    cases hd : degradeAttempt env d with
    | ok q =>
      cases hloc : executeTestingLibraryQuery q with
      | none => simp [locateMiss, hp, hd, hloc] at h
      | some loc =>
        rw [locateMiss_degrade_ok env cache st d e q loc hp hd hloc] at h
        injection h with h2
        exact Or.inr (Or.inl ⟨e, q, rfl, rfl, by rw [← h2]⟩)
    | error e2 =>
      rw [locateMiss_both_fail env cache st d e e2 hp hd] at h
      injection h with h2
      exact Or.inr (Or.inr ⟨e, e2, rfl, rfl, by rw [← h2]⟩)

/-- The gateway-call count of the retry loop is bounded by remaining + 1. -/
theorem executeFrom_length (env : AgentEnv) (instr basePrompt : String)
    (maxRetries : Nat) :
    ∀ remaining attempt prompt,
      (executeFrom env instr basePrompt maxRetries attempt prompt remaining).1.length ≤
        remaining + 1 := by
  intro remaining
  induction remaining with
  | zero =>
    intro attempt prompt
    cases h : attemptOutcome env attempt <;> simp [executeFrom, h]
  | succ r ih =>
    intro attempt prompt
    cases h : attemptOutcome env attempt with
    | ok u => simp [executeFrom, h]
    | error msg =>
      have := ih (attempt + 1) (retryPrompt basePrompt msg)
      simp only [executeFrom, h]
      simpa using Nat.succ_le_succ this

/-- Closed form of the retry loop when every reachable attempt yields
unparseable text. -/
theorem executeFrom_all_malformed (env : AgentEnv) (instr basePrompt : String)
    (maxRetries : Nat) (t : Nat → String) :
    ∀ remaining attempt prompt,
      (∀ j, j ≤ remaining →
        env.gateway (attempt + j) = GatewayOutcome.success (RawResponse.malformed (t (attempt + j)))) →
      executeFrom env instr basePrompt maxRetries attempt prompt remaining =
        (prompt :: (List.range remaining).map
            (fun j => retryPrompt basePrompt ("Invalid JSON response: " ++ t (attempt + j))),
         Except.error (terminalMsg instr maxRetries
            ("Invalid JSON response: " ++ t (attempt + remaining)))) := by
  intro remaining
  induction remaining with
  | zero =>
    intro attempt prompt hall
    have h0 := hall 0 (Nat.le_refl 0)
    simp only [Nat.add_zero] at h0
    simp [executeFrom, attemptOutcome, h0]
  | succ r ih =>
    intro attempt prompt hall
    have h0 := hall 0 (Nat.zero_le _)
    simp only [Nat.add_zero] at h0
    have hrec := ih (attempt + 1)
      (retryPrompt basePrompt ("Invalid JSON response: " ++ t attempt))
      (fun j hj => by
        have := hall (j + 1) (Nat.succ_le_succ hj)
        simpa [Nat.add_assoc, Nat.add_comm 1 j] using this)
    simp only [executeFrom, attemptOutcome, h0, hrec]
    refine Prod.ext ?_ ?_
    · simp only [List.range_succ_eq_map, List.map_cons, List.map_map]
      refine congrArg₂ _ rfl (congrArg₂ _ rfl ?_)
      refine List.map_congr_left ?_
      intro j hj
      simp only [Function.comp]
      have : attempt + 1 + j = attempt + (j + 1) := by omega
      rw [this]
    · have : attempt + 1 + r = attempt + (r + 1) := by omega
      simp [this]

/-- The retry loop succeeds when the final reachable attempt succeeds. -/
theorem executeFrom_eventual_ok (env : AgentEnv) (instr basePrompt : String)
    (maxRetries : Nat) :
    ∀ remaining attempt prompt,
      (∀ j, j < remaining →
        ∃ tj, env.gateway (attempt + j) = GatewayOutcome.success (RawResponse.malformed tj)) →
      attemptOutcome env (attempt + remaining) = Except.ok () →
      (executeFrom env instr basePrompt maxRetries attempt prompt remaining).2 =
        Except.ok () := by
  intro remaining
  induction remaining with
  | zero =>
    intro attempt prompt hfirst hlast
    rw [Nat.add_zero] at hlast
    simp [executeFrom, hlast]
  | succ r ih =>
    intro attempt prompt hfirst hlast
    obtain ⟨t0, h0⟩ := hfirst 0 (Nat.succ_pos r)
    rw [Nat.add_zero] at h0
    have hout : attemptOutcome env attempt =
        Except.error ("Invalid JSON response: " ++ t0) := by
      unfold attemptOutcome
      rw [h0]
    simp only [executeFrom, hout]
    exact ih (attempt + 1) _
      (fun j hj => by
        obtain ⟨tj, hji⟩ := hfirst (j + 1) (Nat.succ_lt_succ hj)
        exact ⟨tj, by rw [show attempt + 1 + j = attempt + (j + 1) from by omega]; exact hji⟩)
      (by rw [show attempt + 1 + r = attempt + (r + 1) from by omega]; exact hlast)

/-- On a failed primary attempt the catch block runs exactly one degrade
attempt; its success persists the result, its failure yields the literal
fallback. -/
theorem locateMiss_primary_error (env : Env) (cache : CacheFile) (st : LocState)
    (d e : String) (hp : primaryAttempt env st d = Except.error e) :
    ∃ out, locateMiss env cache st d = Except.ok out ∧
      out.calls = [primaryCallOf env st d, degradeCallOf env d] ∧
      (∀ q, degradeAttempt env d = Except.ok q →
        out.cacheAfter = saveSnapshot env.snapshotFilePath cache d q ∧
        executeTestingLibraryQuery q = some out.locator) ∧
      (∀ e2, degradeAttempt env d = Except.error e2 →
        out.locator = PWLocator.getByText d (some false) ∧ out.cacheAfter = cache) := by
  cases hd : degradeAttempt env d with
  | ok q =>
    obtain ⟨j2, hj⟩ := degradeAttempt_ok_schema env d q hd
    obtain ⟨loc, hloc⟩ := executeTLQ_of_schema j2 q hj
    refine ⟨_, locateMiss_degrade_ok env cache st d e q loc hp hd hloc, rfl, ?_, ?_⟩
    · intro q2 hq2
      injection hq2 with hq3
      subst hq3
      exact ⟨rfl, hloc⟩
    · intro e2a he2
      exact absurd he2 (by simp)
  | error e2 =>
    refine ⟨_, locateMiss_both_fail env cache st d e e2 hp hd, rfl, ?_, ?_⟩
    · intro q2 hq2
      exact absurd hq2 (by simp)
    · intro e3 he3
      exact ⟨rfl, rfl⟩

/-- Keys readable before a save stay readable after it. -/
theorem lookupEntry_saveSnapshot_total (p : Option String) (f : CacheFile)
    (d k : String) (q q0 : LocatorQuery)
    (h : lookupEntry (readSnapshots p f) k = some q0) :
    ∃ q1, lookupEntry (readSnapshots p (saveSnapshot p f d q)) k = some q1 := by
  by_cases hk : k = d
  · subst hk
    cases p with
    | none => exact ⟨q0, h⟩
    | some s => exact ⟨q, lookupEntry_saveSnapshot_self s f k q⟩
  · exact ⟨q0, by rw [lookupEntry_saveSnapshot_ne p f d k q hk]; exact h⟩

/-! ## Claims -/

/-- C1, counterexample: a gateway response that is valid JSON with kind
getByRole and params ["paragraph"] — not a semantic role — passes
LocatorQuerySchema.parse, and locate returns the invalid role query from
the primary attempt without entering the degrade path (one gateway call,
and the invalid query is even persisted to the cache). -/
theorem c1_counterexample_paragraph_role_accepted :
    LocatorQuerySchema.parse roleParagraphJson =
      Except.ok ⟨"getByRole", ["paragraph"]⟩ ∧
    locate envC1 CacheFile.missing ⟨none, none⟩ "the intro paragraph" =
      Except.ok ⟨PWLocator.getByRole "paragraph" none,
        [primaryCallOf envC1 ⟨none, none⟩ "the intro paragraph"],
        CacheFile.data [("the intro paragraph", ⟨"getByRole", ["paragraph"]⟩)],
        stAfterBody envC1 ⟨none, none⟩ "the intro paragraph"⟩ :=
  ⟨rfl, rfl⟩

/-- C1, amended: the parse/validate step enforces only that the query kind
is one of the six enumeration values and that params is a non-empty string
array; a response violating that (e.g. an unknown kind) does send locate to
the degrade path, but the first parameter of a getByRole query is not
checked against any role set. -/
theorem c1_amended_schema_guarantees (j : Json) (q : LocatorQuery)
    (h : LocatorQuerySchema.parse j = Except.ok q) :
    (q.query ∈ validQueryKinds ∧ q.params ≠ []) ∧
    ∀ (env : Env) (cache : CacheFile) (st : LocState) (d : String)
      (j2 : Json) (e : String),
      fallsThroughCache env cache d →
      env.gateway (primaryCallOf env st d) =
        GatewayOutcome.success (RawResponse.wellFormed j2) →
      LocatorQuerySchema.parse j2 = Except.error e →
      ∃ out, locate env cache st d = Except.ok out ∧
        out.calls = [primaryCallOf env st d, degradeCallOf env d] := by
  refine ⟨schemaParse_ok_shape j q h, ?_⟩
  intro env cache st d j2 e hcache hgw hparse
  have hp : primaryAttempt env st d = Except.error e := by
    unfold primaryAttempt
    rw [hgw]
    exact hparse
  obtain ⟨out, hout, hcalls, -, -⟩ := locateMiss_primary_error env cache st d e hp
  exact ⟨out, by rw [locate_fallsThrough env cache st d hcache]; exact hout, hcalls⟩

/-- C1, witness for the amended claim at a concrete schema-valid input. -/
theorem c1_amended_witness :
    (("getByRole" : String) ∈ validQueryKinds ∧
      ("heading" :: ["Example Domain"] : List String) ≠ []) ∧
    ∀ (env : Env) (cache : CacheFile) (st : LocState) (d : String)
      (j2 : Json) (e : String),
      fallsThroughCache env cache d →
      env.gateway (primaryCallOf env st d) =
        GatewayOutcome.success (RawResponse.wellFormed j2) →
      LocatorQuerySchema.parse j2 = Except.error e →
      ∃ out, locate env cache st d = Except.ok out ∧
        out.calls = [primaryCallOf env st d, degradeCallOf env d] :=
  c1_amended_schema_guarantees headingJson ⟨"getByRole", ["heading", "Example Domain"]⟩ rfl

/-- C2, code bug: the retry loop of AIAgent.execute catches every failure
of the try block, including post-parse failures of the action plan.  With a
gateway that always returns the same syntactically valid plan whose verb is
unsupported, execute re-prompts the model twice (three gateway calls for
maxRetries = 2, each retry prompt wrongly claiming the previous response
could not be parsed as valid JSON) and finally raises the wrapped terminal
error — instead of propagating the unsupported-action error immediately, as
the claim and the code's own doc comment (retry logic for JSON parsing)
state. -/
theorem c2_codebug_post_parse_failure_is_retried :
    AIAgent.execute envC2 "frob the widget" 2 =
      ([basePromptOf envC2 "frob the widget",
        retryPrompt (basePromptOf envC2 "frob the widget")
          "Unsupported action: frobnicate",
        retryPrompt (basePromptOf envC2 "frob the widget")
          "Unsupported action: frobnicate"],
       Except.error (terminalMsg "frob the widget" 2
         "Unsupported action: frobnicate")) :=
  rfl

/-- C3: for an arbitrary always-failing gateway (throwing stub or timing-out
stub on both the primary and the degrade attempt) and a cache state that
does not short-circuit, locate never raises: it returns the non-exact
TextQuery whose sole parameter is the original description. -/
theorem c3_locate_total_gateway_failure (env : Env) (cache : CacheFile)
    (st : LocState) (d : String) (msg : GatewayCall → String)
    (hfail : ∀ c, env.gateway c = GatewayOutcome.failure (msg c))
    (hcache : fallsThroughCache env cache d) :
    ∃ out, locate env cache st d = Except.ok out ∧
      out.locator = PWLocator.getByText d (some false) := by
  have hp : primaryAttempt env st d =
      Except.error (msg (primaryCallOf env st d)) := by
    unfold primaryAttempt
    rw [hfail]
  have hd : degradeAttempt env d =
      Except.error (msg (degradeCallOf env d)) := by
    unfold degradeAttempt
    rw [hfail]
  rw [locate_fallsThrough env cache st d hcache,
      locateMiss_both_fail env cache st d _ _ hp hd]
  exact ⟨_, rfl, rfl⟩

/-- C3, witness: the always-timing-out stub with an empty cache. -/
theorem c3_witness :
    ∃ out, locate envFail CacheFile.missing ⟨none, none⟩ "the submit button" =
        Except.ok out ∧
      out.locator = PWLocator.getByText "the submit button" (some false) :=
  c3_locate_total_gateway_failure envFail CacheFile.missing ⟨none, none⟩
    "the submit button" (fun _ => "AI request timed out") (fun _ => rfl)
    (Or.inl rfl)

/-- C4: a cache entry whose query matches at least one live element is
returned as-is with no gateway call (the calls trace is empty and the cache
and state are untouched); an entry matching zero live elements is bypassed
and locate runs the full cache-miss path. -/
theorem c4_cache_hit_semantics (env : Env) (cache : CacheFile) (st : LocState)
    (d : String) (q : LocatorQuery) (loc : PWLocator)
    (hq : lookupEntry (readSnapshots env.snapshotFilePath cache) d = some q)
    (hloc : executeTestingLibraryQuery q = some loc)
    (ht : env.testInstance = true) :
    (env.count loc > 0 →
      locate env cache st d = Except.ok ⟨loc, [], cache, st⟩) ∧
    (env.count loc = 0 →
      locate env cache st d = locateMiss env cache st d) := by
  constructor
  · intro hcnt
    simp [locate, hq, hloc, ht, hcnt]
  · intro hcnt
    simp [locate, hq, hloc, ht, hcnt]

/-- C4, witness: a live cached heading entry is accepted without any
gateway call, and would be bypassed at count zero. -/
theorem c4_witness :
    (envHit.count (PWLocator.getByRole "heading" (some "Example Domain")) > 0 →
      locate envHit cacheHitFile ⟨none, none⟩ "the main heading" =
        Except.ok ⟨PWLocator.getByRole "heading" (some "Example Domain"), [],
          cacheHitFile, ⟨none, none⟩⟩) ∧
    (envHit.count (PWLocator.getByRole "heading" (some "Example Domain")) = 0 →
      locate envHit cacheHitFile ⟨none, none⟩ "the main heading" =
        locateMiss envHit cacheHitFile ⟨none, none⟩ "the main heading") :=
  c4_cache_hit_semantics envHit cacheHitFile ⟨none, none⟩ "the main heading"
    ⟨"getByRole", ["heading", "Example Domain"]⟩
    (PWLocator.getByRole "heading" (some "Example Domain")) rfl rfl rfl

/-- C5: the plan-generation loop makes at most maxRetries + 1 gateway
calls; when every attempt yields unparseable text it makes exactly
maxRetries + 1 calls, every retry prompt appends the previous parse error
to the base prompt, and the terminal error embeds the instruction; when the
first maxRetries attempts yield unparseable text and the last yields valid
JSON whose plan executes, execute succeeds without raising. -/
theorem c5_execute_retry_budget :
    (∀ (env : AgentEnv) (instr : String) (mr : Nat),
      (AIAgent.execute env instr mr).1.length ≤ mr + 1) ∧
    (∀ (env : AgentEnv) (instr : String) (mr : Nat) (t : Nat → String),
      (∀ i, i ≤ mr →
        env.gateway i = GatewayOutcome.success (RawResponse.malformed (t i))) →
      AIAgent.execute env instr mr =
        (basePromptOf env instr ::
          (List.range mr).map (fun j =>
            retryPrompt (basePromptOf env instr) ("Invalid JSON response: " ++ t j)),
         Except.error (terminalMsg instr mr ("Invalid JSON response: " ++ t mr)))) ∧
    (∀ (env : AgentEnv) (instr : String) (mr : Nat) (plan : Json),
      (∀ i, i < mr →
        ∃ ti, env.gateway i = GatewayOutcome.success (RawResponse.malformed ti)) →
      env.gateway mr = GatewayOutcome.success (RawResponse.wellFormed plan) →
      executeActionPlan env plan = Except.ok () →
      (AIAgent.execute env instr mr).2 = Except.ok ()) := by
  refine ⟨?_, ?_, ?_⟩
  · intro env instr mr
    exact executeFrom_length env instr (basePromptOf env instr) mr mr 0
      (basePromptOf env instr)
  · intro env instr mr t hall
    have hclosed := executeFrom_all_malformed env instr (basePromptOf env instr)
      mr t mr 0 (basePromptOf env instr) (fun j hj => by simpa using hall j hj)
    simpa [AIAgent.execute] using hclosed
  · intro env instr mr plan hfirst hmr hplan
    have hlast : attemptOutcome env (0 + mr) = Except.ok () := by
      rw [Nat.zero_add]
      unfold attemptOutcome
      rw [hmr]
      exact hplan
    exact executeFrom_eventual_ok env instr (basePromptOf env instr) mr mr 0
      (basePromptOf env instr) (fun j hj => by simpa using hfirst j hj) hlast

/-- C5, witness: two unparseable responses followed by the valid click plan
succeed without raising. -/
theorem c5_witness :
    (AIAgent.execute envRetry "click the submit button" 2).2 = Except.ok () :=
  c5_execute_retry_budget.2.2 envRetry "click the submit button" 2 clickPlan
    (fun i hi => ⟨"oops", by simp [envRetry, hi]⟩) (by rfl) rfl

/-- C6: whenever the primary attempt fails (gateway failure, lost timeout
race, JSON parse failure or schema failure all make primaryAttempt an
error), exactly one degrade attempt follows: the second and last gateway
call carries the shorter prompt built from the aggressively re-simplified
document and is made without the timeout race; if it parses and validates,
the result is persisted to the cache and its locator returned. -/
theorem c6_primary_failure_one_degrade (env : Env) (cache : CacheFile)
    (st : LocState) (d e : String)
    (hcache : fallsThroughCache env cache d)
    (hfail : primaryAttempt env st d = Except.error e) :
    (degradeCallOf env d).useTimeout = false ∧
    (degradeCallOf env d).prompt =
      env.createSimpleLocatorPrompt d (env.simplifyHtml env.html) ∧
    ∃ out, locate env cache st d = Except.ok out ∧
      out.calls = [primaryCallOf env st d, degradeCallOf env d] ∧
      (∀ q, degradeAttempt env d = Except.ok q →
        out.cacheAfter = saveSnapshot env.snapshotFilePath cache d q ∧
        executeTestingLibraryQuery q = some out.locator) := by
  obtain ⟨out, hout, hcalls, hsave, -⟩ :=
    locateMiss_primary_error env cache st d e hfail
  exact ⟨rfl, rfl, out,
    by rw [locate_fallsThrough env cache st d hcache]; exact hout, hcalls, hsave⟩

/-- C6, witness: a timed-out primary attempt followed by a successful
degrade attempt. -/
theorem c6_witness :
    (degradeCallOf envDeg "the main heading").useTimeout = false ∧
    (degradeCallOf envDeg "the main heading").prompt =
      envDeg.createSimpleLocatorPrompt "the main heading"
        (envDeg.simplifyHtml envDeg.html) ∧
    ∃ out, locate envDeg CacheFile.missing ⟨none, none⟩ "the main heading" =
        Except.ok out ∧
      out.calls = [primaryCallOf envDeg ⟨none, none⟩ "the main heading",
        degradeCallOf envDeg "the main heading"] ∧
      (∀ q, degradeAttempt envDeg "the main heading" = Except.ok q →
        out.cacheAfter = saveSnapshot envDeg.snapshotFilePath CacheFile.missing
          "the main heading" q ∧
        executeTestingLibraryQuery q = some out.locator) :=
  c6_primary_failure_one_degrade envDeg CacheFile.missing ⟨none, none⟩
    "the main heading" "AI request timed out" (Or.inl rfl) rfl

/-- C7: locate never deletes a cache entry.  The cache after a locate call
is either unchanged or the original cache with the description's own entry
overwritten by a newly resolved query; entries under every other key read
back unchanged, every key readable before is readable after, and when both
the primary and the degrade attempt fail (the literal text-search fallback
path) the cache is left exactly as it was. -/
theorem c7_locate_never_deletes (env : Env) (cache : CacheFile) (st : LocState)
    (d : String) (out : LocateOutput)
    (h : locate env cache st d = Except.ok out) :
    (out.cacheAfter = cache ∨
      ∃ q, out.cacheAfter = saveSnapshot env.snapshotFilePath cache d q) ∧
    (∀ k, k ≠ d →
      lookupEntry (readSnapshots env.snapshotFilePath out.cacheAfter) k =
        lookupEntry (readSnapshots env.snapshotFilePath cache) k) ∧
    (∀ k q0, lookupEntry (readSnapshots env.snapshotFilePath cache) k = some q0 →
      ∃ q1, lookupEntry (readSnapshots env.snapshotFilePath out.cacheAfter) k = some q1) ∧
    (∀ e1 e2, primaryAttempt env st d = Except.error e1 →
      degradeAttempt env d = Except.error e2 → out.cacheAfter = cache) := by
  have missCase : locateMiss env cache st d = Except.ok out →
      (out.cacheAfter = cache ∨
        ∃ q, out.cacheAfter = saveSnapshot env.snapshotFilePath cache d q) ∧
      (∀ e1 e2, primaryAttempt env st d = Except.error e1 →
        degradeAttempt env d = Except.error e2 → out.cacheAfter = cache) := by
    intro hm
    rcases locateMiss_cacheAfter_cases env cache st d out hm with
      ⟨q, hpq, hcq⟩ | ⟨e, q, hpe, hdq, hcq⟩ | ⟨e1, e2, hpe, hde, hcq⟩
    · exact ⟨Or.inr ⟨q, hcq⟩, fun e1a e2a hp1 hd1 => absurd hp1 (by simp [hpq])⟩
    · exact ⟨Or.inr ⟨q, hcq⟩, fun e1a e2a hp1 hd1 => absurd hd1 (by simp [hdq])⟩
    · exact ⟨Or.inl hcq, fun _ _ _ _ => hcq⟩
  have main :
      (out.cacheAfter = cache ∨
        ∃ q, out.cacheAfter = saveSnapshot env.snapshotFilePath cache d q) ∧
      (∀ e1 e2, primaryAttempt env st d = Except.error e1 →
        degradeAttempt env d = Except.error e2 → out.cacheAfter = cache) := by
    cases hl : lookupEntry (readSnapshots env.snapshotFilePath cache) d with
    | none =>
      have hm : locate env cache st d = locateMiss env cache st d := by
        simp [locate, hl]
      rw [hm] at h
      exact missCase h
    | some q0 =>
      cases hloc : executeTestingLibraryQuery q0 with
      | none => simp [locate, hl, hloc] at h
      | some loc =>
        cases ht : env.testInstance with
        | false => simp [locate, hl, hloc, ht] at h
        | true =>
          by_cases hcnt : env.count loc > 0
          · have hacc : locate env cache st d = Except.ok ⟨loc, [], cache, st⟩ := by
              simp [locate, hl, hloc, ht, hcnt]
            rw [hacc] at h
            injection h with h2
            refine ⟨Or.inl ?_, fun _ _ _ _ => ?_⟩ <;> rw [← h2]
          · have hm : locate env cache st d = locateMiss env cache st d := by
              simp [locate, hl, hloc, ht, hcnt]
            rw [hm] at h
            exact missCase h
  obtain ⟨hca, h4⟩ := main
  refine ⟨hca, ?_, ?_, h4⟩
  · intro k hk
    rcases hca with hc | ⟨q, hc⟩
    · rw [hc]
    · rw [hc]
      exact lookupEntry_saveSnapshot_ne env.snapshotFilePath cache d k q hk
  · intro k q0 hk0
    rcases hca with hc | ⟨q, hc⟩
    · exact ⟨q0, by rw [hc]; exact hk0⟩
    · rw [hc]
      exact lookupEntry_saveSnapshot_total env.snapshotFilePath cache d k q q0 hk0

/-- C7, witness: on the literal-fallback run of envFail the cache survives
untouched. -/
theorem c7_witness :
    (outFailX.cacheAfter = CacheFile.missing ∨
      ∃ q, outFailX.cacheAfter =
        saveSnapshot envFail.snapshotFilePath CacheFile.missing "x" q) ∧
    (∀ k, k ≠ "x" →
      lookupEntry (readSnapshots envFail.snapshotFilePath outFailX.cacheAfter) k =
        lookupEntry (readSnapshots envFail.snapshotFilePath CacheFile.missing) k) ∧
    (∀ k q0,
      lookupEntry (readSnapshots envFail.snapshotFilePath CacheFile.missing) k = some q0 →
      ∃ q1, lookupEntry (readSnapshots envFail.snapshotFilePath outFailX.cacheAfter) k =
        some q1) ∧
    (∀ e1 e2, primaryAttempt envFail ⟨none, none⟩ "x" = Except.error e1 →
      degradeAttempt envFail "x" = Except.error e2 →
      outFailX.cacheAfter = CacheFile.missing) :=
  c7_locate_never_deletes envFail CacheFile.missing ⟨none, none⟩ "x" outFailX rfl

/-- C8: writing a structured query to the cache with saveSnapshot and
reading it back with readSnapshots yields, under that description's key,
exactly the query kind and parameter list that were written. -/
theorem c8_snapshot_roundtrip (p : String) (f : CacheFile) (d : String)
    (q : LocatorQuery) :
    lookupEntry (readSnapshots (some p) (saveSnapshot (some p) f d q)) d = some q :=
  lookupEntry_saveSnapshot_self p f d q

/-- C9: the useSimplifiedHtml flag has no effect on locate: two
environments identical except for that flag produce the same locator, the
same gateway-call trace, the same cache and the same state, because the
degrade-branch guard (this.useSimplifiedHtml || true) is short-circuited to
true. -/
theorem c9_useSimplifiedHtml_no_effect
    (g : GatewayCall → GatewayOutcome) (cnt : PWLocator → Nat) (html : String)
    (ebc : String → String → String) (sh : String → String)
    (csp : String → String → String) (t : Bool) (p : Option String)
    (b1 b2 : Bool) (cache : CacheFile) (st : LocState) (d : String) :
    locate (Env.mk g cnt html ebc sh csp b1 t p) cache st d =
      locate (Env.mk g cnt html ebc sh csp b2 t p) cache st d := by
  have hmiss : locateMiss (Env.mk g cnt html ebc sh csp b1 t p) cache st d =
      locateMiss (Env.mk g cnt html ebc sh csp b2 t p) cache st d := by
    unfold locateMiss
    rw [show primaryAttempt (Env.mk g cnt html ebc sh csp b2 t p) st d =
          primaryAttempt (Env.mk g cnt html ebc sh csp b1 t p) st d from rfl,
        show degradeAttempt (Env.mk g cnt html ebc sh csp b2 t p) d =
          degradeAttempt (Env.mk g cnt html ebc sh csp b1 t p) d from rfl,
        show stAfterBody (Env.mk g cnt html ebc sh csp b2 t p) st d =
          stAfterBody (Env.mk g cnt html ebc sh csp b1 t p) st d from rfl,
        show primaryCallOf (Env.mk g cnt html ebc sh csp b2 t p) st d =
          primaryCallOf (Env.mk g cnt html ebc sh csp b1 t p) st d from rfl,
        show degradeCallOf (Env.mk g cnt html ebc sh csp b2 t p) d =
          degradeCallOf (Env.mk g cnt html ebc sh csp b1 t p) d from rfl]
    dsimp only
    simp [Bool.or_true]
  simp only [locate]
  dsimp only
  rw [hmiss]

/-- C10: a query object with non-empty params whose name, lower-cased, is
none of the six recognized kinds does not raise: the switch default falls
back to a text query on params[0], and unlike the recognized getbytext case
this fallback passes no exact-matching option. -/
theorem c10_unknown_query_kind_fallback (q : LocatorQuery) (p0 : String)
    (rest : List String) (hp : q.params = p0 :: rest)
    (hq : jsToLower q.query ∉
      (["getbyrole", "getbytext", "getbylabeltext", "getbyplaceholdertext",
        "getbytestid", "getbyalttext"] : List String)) :
    executeTestingLibraryQuery q = some (PWLocator.getByText p0 none) ∧
    ∀ q2 : LocatorQuery, q2.params = p0 :: rest →
      jsToLower q2.query = "getbytext" →
      executeTestingLibraryQuery q2 = some (PWLocator.getByText p0 (some false)) := by
  constructor
  · simp only [executeTestingLibraryQuery, hp, List.head?_cons]
    split
    all_goals first
      | rfl
      | (rename_i heq; exact absurd (by rw [heq]; decide) hq)
  · intro q2 hp2 hq2
    simp only [executeTestingLibraryQuery, hp2, List.head?_cons, hq2]

/-- C10, witness: an unrecognized query name falls back to an optionless
text query on the first parameter. -/
theorem c10_witness :
    executeTestingLibraryQuery ⟨"getByMagic", ["Sign up"]⟩ =
      some (PWLocator.getByText "Sign up" none) ∧
    ∀ q2 : LocatorQuery, q2.params = "Sign up" :: [] →
      jsToLower q2.query = "getbytext" →
      executeTestingLibraryQuery q2 =
        some (PWLocator.getByText "Sign up" (some false)) :=
  c10_unknown_query_kind_fallback ⟨"getByMagic", ["Sign up"]⟩ "Sign up" [] rfl
    (by decide)
